import Mathlib

/-
Verification of src/model/television.py (wikidata-toolkit).

Shallow embedding notes:
- An `Item` models a fetched pywikibot ItemPage: its title (Wikidata id, e.g.
  "Q123") and its claims dictionary, a mapping from property id to the list of
  statements asserted for that property. A `Stmt` models one claim: its target
  (the id of the referenced item, `getTarget().title()`; constructing a wrapper
  from it goes through the item store `Env.fetch`) and its qualifiers mapping
  (qualifier property id to list of raw string values, `getTarget()` of a
  qualifier).
- The specific property-id strings live in properties/wikidata_properties.py,
  which is outside src/; each property referenced by television.py is modelled
  as a constructor of `WProp`, with `WProp.pid` a distinct opaque string per
  property (modelled from the spec: "the specific set of property identifiers
  used as vocabulary" is an external collaborator).
- External effects are an explicit environment `Env`: `fetch` is the item
  store (ItemPage data lookup) and `query` is the SPARQL service
  (WikidataSPARQLPageGenerator), mapping a query string to the (finite) list
  of items the generator would yield.
- Python errors: television.py raises KeyError on a missing structural fact
  (dict indexing), IndexError on an empty claim list, and ValueError from
  int() on an unparseable qualifier. The spec's error taxonomy (section 7)
  groups all of these as MalformedDataError ("an expected structural fact
  (parent link, numeric qualifier) is absent or not parseable as the expected
  type"); the embedding uses that name, `Err.malformedData`.
- Each traversal function returns, next to its Python result, the list of
  SPARQL query strings it issued, in order (instrumentation needed to state
  the query-count claims; the Python functions return only the first
  component).
-/

/-- Property identifiers referenced by television.py from
properties.wikidata_properties (module outside src/). -/
inductive WProp where
  | INSTANCE_OF
  | TITLE
  | PART_OF_THE_SERIES
  | SEASON
  | ORIGINAL_NETWORK
  | COUNTRY_OF_ORIGIN
  | ORIGNAL_LANGUAGE_OF_FILM_OR_TV_SHOW
  | PRODUCTION_COMPANY
  | PUBLICATION_DATE
  | DIRECTOR
  | FOLLOWED_BY
  | DURATION
  | IMDB_ID
  | FOLLOWS
  | HAS_PART
  | NUMBER_OF_EPISODES
  | SERIES_ORDINAL
  deriving DecidableEq, Repr

/-- Modelled from the spec: the concrete property-id strings are external
vocabulary (properties/wikidata_properties.py is not under src/); each
property gets a distinct opaque pid string. -/
def WProp.pid : WProp → String
  | .INSTANCE_OF => "P:INSTANCE_OF"
  | .TITLE => "P:TITLE"
  | .PART_OF_THE_SERIES => "P:PART_OF_THE_SERIES"
  | .SEASON => "P:SEASON"
  | .ORIGINAL_NETWORK => "P:ORIGINAL_NETWORK"
  | .COUNTRY_OF_ORIGIN => "P:COUNTRY_OF_ORIGIN"
  | .ORIGNAL_LANGUAGE_OF_FILM_OR_TV_SHOW => "P:ORIGNAL_LANGUAGE_OF_FILM_OR_TV_SHOW"
  | .PRODUCTION_COMPANY => "P:PRODUCTION_COMPANY"
  | .PUBLICATION_DATE => "P:PUBLICATION_DATE"
  | .DIRECTOR => "P:DIRECTOR"
  | .FOLLOWED_BY => "P:FOLLOWED_BY"
  | .DURATION => "P:DURATION"
  | .IMDB_ID => "P:IMDB_ID"
  | .FOLLOWS => "P:FOLLOWS"
  | .HAS_PART => "P:HAS_PART"
  | .NUMBER_OF_EPISODES => "P:NUMBER_OF_EPISODES"
  | .SERIES_ORDINAL => "P:SERIES_ORDINAL"

/-- One claim (statement) on an item: its target item id and its qualifiers
dictionary (qualifier property to list of raw string values). -/
structure Stmt where
  target : String
  qualifiers : List (WProp × List String)
  deriving DecidableEq, Repr

/-- A fetched graph item: its title (Wikidata id) and its claims dictionary. -/
structure Item where
  title : String
  claims : List (WProp × List Stmt)
  deriving DecidableEq, Repr

/-- Dictionary lookup on an association list (Python dict access semantics:
`k in d` is `(lookupProp d k).isSome`, `d[k]` is the looked-up value). -/
def lookupProp {α : Type} : List (WProp × α) → WProp → Option α
  | [], _ => none
  | (k2, v) :: rest, k => if k2 = k then some v else lookupProp rest k

/-- Errors of the embedded code. The spec (section 7) calls a missing or
unparseable structural fact MalformedDataError; the Python code surfaces
these as KeyError / IndexError / ValueError respectively. -/
inductive Err where
  | malformedData
  deriving DecidableEq, Repr

/-- Result of wrapping an item into one of the three variants of
television.py (Episode / Season / Series classes). -/
inductive TvEntity where
  | episode (page : Item)
  | season (page : Item)
  | series (page : Item)
  deriving DecidableEq, Repr

/-- External collaborators: the item store (`fetch`, ItemPage data lookup by
id) and the SPARQL query service (`query`, the finite sequence of items a
WikidataSPARQLPageGenerator for the given query text would yield). -/
structure Env where
  fetch : String → Item
  query : String → List Item

/-- Python whitespace, as stripped by int() around its argument. -/
def isPySpace (c : Char) : Bool :=
  c = ' ' || c = '\t' || c = '\n' || c = '\r' || c = '\x0b' || c = '\x0c'

/-- Python `int(s)`: optional surrounding whitespace, optional sign, one or
more decimal digits. (Python 3 underscore digit grouping is omitted; no
claim depends on it.) Returns `none` where Python raises ValueError. -/
def pyInt (s : String) : Option Int :=
  let cs := ((s.data.dropWhile isPySpace).reverse.dropWhile isPySpace).reverse
  let signed : Int × List Char :=
    match cs with
    | '-' :: rest => (-1, rest)
    | '+' :: rest => (1, rest)
    | _ => (1, cs)
  if signed.2 ≠ [] ∧ signed.2.all Char.isDigit then
    some (signed.1 * ((signed.2.foldl (fun acc c => 10 * acc + (c.toNat - 48)) 0 : Nat) : Int))
  else none

/-- Python f-string rendering of an optional id: `None` renders as the text
"None". -/
def pyStr : Option String → String
  | none => "None"
  | some s => s

/-- Modelled from the spec: sparql/query_builder.py is not under src/; per
the spec, query construction translates a condition dictionary ("entities
where fact X = value Y") into the service's query syntax. Modelled as an
injective encoding of the condition dictionary. -/
def generate_sparql_query (conditions : List (WProp × String)) : String :=
  "SPARQL\x7b" ++
    String.intercalate ";" (conditions.map (fun c => WProp.pid c.1 ++ "=" ++ c.2)) ++
  "\x7d"

/-- Episode.part_of_the_series: the id of the series of which this episode is
a part, or None if the fact is absent. -/
def Episode.part_of_the_series (page : Item) : Except Err (Option String) :=
  match lookupProp page.claims .PART_OF_THE_SERIES with
  | none => .ok none
  | some [] => .error .malformedData
  | some (c :: _) => .ok (some c.target)

/-- Episode.season: the id of the season of which this episode is a part, or
None if the fact is absent. -/
def Episode.season (page : Item) : Except Err (Option String) :=
  match lookupProp page.claims .SEASON with
  | none => .ok none
  | some [] => .error .malformedData
  | some (c :: _) => .ok (some c.target)

/-- Episode.ordinal_in_series: the integer SERIES_ORDINAL qualifier on the
first PART_OF_THE_SERIES claim; None if the claim or the qualifier is
missing; error if the qualifier value is not parseable as an int. -/
def Episode.ordinal_in_series (page : Item) : Except Err (Option Int) :=
  match lookupProp page.claims .PART_OF_THE_SERIES with
  | none => .ok none
  | some [] => .error .malformedData
  | some (series_claim :: _) =>
    match lookupProp series_claim.qualifiers .SERIES_ORDINAL with
    | none => .ok none
    | some [] => .error .malformedData
    | some (v :: _) =>
      match pyInt v with
      | none => .error .malformedData
      | some n => .ok (some n)

/-- Episode.ordinal_in_season: the integer SERIES_ORDINAL qualifier on the
first SEASON claim; None if the claim or the qualifier is missing; error if
the qualifier value is not parseable as an int. -/
def Episode.ordinal_in_season (page : Item) : Except Err (Option Int) :=
  match lookupProp page.claims .SEASON with
  | none => .ok none
  | some [] => .error .malformedData
  | some (series_claim :: _) =>
    match lookupProp series_claim.qualifiers .SERIES_ORDINAL with
    | none => .ok none
    | some [] => .error .malformedData
    | some (v :: _) =>
      match pyInt v with
      | none => .error .malformedData
      | some n => .ok (some n)

/-- The f-string SPARQL query built by Episode.next_in_season: items
PART_OF_THE_SERIES the same series, SEASON the same season, with season
SERIES_ORDINAL qualifier equal to ordinal + 1. Absent ids interpolate as the
text "None" (Python f-string of None). Surrounding whitespace of the
original f-string is not reproduced. -/
def Episode.season_successor_query (series season : Option String) (ordinal : Int) : String :=
  ("SELECT ?item WHERE \x7b " ++
    "?item wdt:" ++ WProp.pid .PART_OF_THE_SERIES ++ " wd:" ++ pyStr series) ++
  (". " ++
    "?item wdt:" ++ WProp.pid .SEASON ++ " wd:" ++ pyStr season ++ ". " ++
    "?item p:" ++ WProp.pid .SEASON ++ "/pq:" ++ WProp.pid .SERIES_ORDINAL ++
    " \"" ++ toString (ordinal + 1) ++ "\" \x7d")

/-- The f-string SPARQL query built by Episode.next_in_series: items
PART_OF_THE_SERIES the same series with series SERIES_ORDINAL qualifier
equal to ordinal + 1. -/
def Episode.series_successor_query (series : Option String) (ordinal : Int) : String :=
  "SELECT ?item WHERE \x7b " ++
    "?item wdt:" ++ WProp.pid .PART_OF_THE_SERIES ++ " wd:" ++ pyStr series ++ ". " ++
    "?item p:" ++ WProp.pid .PART_OF_THE_SERIES ++ "/pq:" ++ WProp.pid .SERIES_ORDINAL ++
    " \"" ++ toString (ordinal + 1) ++ "\" \x7d"

/-- Episode.next_in_season: the next Episode from the same season, found by
one SPARQL query on season ordinal + 1, or None when the ordinal is
unresolvable or the query yields nothing. -/
def Episode.next_in_season (env : Env) (page : Item) : Except Err (Option TvEntity × List String) :=
  match Episode.ordinal_in_season page with
  | .error e => .error e
  | .ok none => .ok (none, [])
  | .ok (some n) =>
    match Episode.part_of_the_series page with
    | .error e => .error e
    | .ok series =>
      match Episode.season page with
      | .error e => .error e
      | .ok season =>
        let q := Episode.season_successor_query series season n
        match (env.query q).head? with
        | none => .ok (none, [q])
        | some it => .ok (some (.episode it), [q])

/-- Episode.next_in_series: the next Episode from the same series, found by
one SPARQL query on series ordinal + 1, or None when the ordinal is
unresolvable or the query yields nothing. -/
def Episode.next_in_series (env : Env) (page : Item) : Except Err (Option TvEntity × List String) :=
  match Episode.ordinal_in_series page with
  | .error e => .error e
  | .ok none => .ok (none, [])
  | .ok (some n) =>
    match Episode.part_of_the_series page with
    | .error e => .error e
    | .ok series =>
      let q := Episode.series_successor_query series n
      match (env.query q).head? with
      | none => .ok (none, [q])
      | some it => .ok (some (.episode it), [q])

/-- Episode.next: the four-strategy successor resolution. Strategy 1:
explicit FOLLOWED_BY target. Strategy 2: reverse FOLLOWS lookup. Strategy 3:
series ordinal successor, returned whenever ordinal_in_series is resolvable
(even when its query yields nothing). Strategy 4: season ordinal successor,
reached only when ordinal_in_series is unresolvable. -/
def Episode.next (env : Env) (page : Item) : Except Err (Option TvEntity × List String) :=
  match lookupProp page.claims .FOLLOWED_BY with
  | some [] => .error .malformedData
  | some (c :: _) => .ok (some (.episode (env.fetch c.target)), [])
  | none =>
    let q := generate_sparql_query [(.FOLLOWS, page.title)]
    match (env.query q).head? with
    | some it => .ok (some (.episode it), [q])
    | none =>
      match Episode.ordinal_in_series page with
      | .error e => .error e
      | .ok (some _) =>
        match Episode.next_in_series env page with
        | .error e => .error e
        | .ok (r, qs) => .ok (r, q :: qs)
      | .ok none =>
        match Episode.ordinal_in_season page with
        | .error e => .error e
        | .ok (some _) =>
          match Episode.next_in_season env page with
          | .error e => .error e
          | .ok (r, qs) => .ok (r, q :: qs)
        | .ok none => .ok (none, [q])

/-- Episode.parent: the Season of this Episode, from the first SEASON claim;
a missing SEASON fact raises (Python KeyError, the spec's
MalformedDataError). -/
def Episode.parent (env : Env) (page : Item) : Except Err TvEntity :=
  match lookupProp page.claims .SEASON with
  | none => .error .malformedData
  | some [] => .error .malformedData
  | some (c :: _) => .ok (.season (env.fetch c.target))

/-- Season.part_of_the_series: the id of the series of which this season is
a part, or None if the fact is absent. -/
def Season.part_of_the_series (page : Item) : Except Err (Option String) :=
  match lookupProp page.claims .PART_OF_THE_SERIES with
  | none => .ok none
  | some [] => .error .malformedData
  | some (c :: _) => .ok (some c.target)

/-- Season.ordinal_in_series: the integer SERIES_ORDINAL qualifier on the
first PART_OF_THE_SERIES claim (same code as Episode.ordinal_in_series). -/
def Season.ordinal_in_series (page : Item) : Except Err (Option Int) :=
  match lookupProp page.claims .PART_OF_THE_SERIES with
  | none => .ok none
  | some [] => .error .malformedData
  | some (series_claim :: _) =>
    match lookupProp series_claim.qualifiers .SERIES_ORDINAL with
    | none => .ok none
    | some [] => .error .malformedData
    | some (v :: _) =>
      match pyInt v with
      | none => .error .malformedData
      | some n => .ok (some n)

/-- Season.next_in_series: the next Season from the same series, found by
one SPARQL query on series ordinal + 1 (the query text is identical to
Episode.next_in_series's; the result wraps as a Season). -/
def Season.next_in_series (env : Env) (page : Item) : Except Err (Option TvEntity × List String) :=
  match Season.ordinal_in_series page with
  | .error e => .error e
  | .ok none => .ok (none, [])
  | .ok (some n) =>
    match Season.part_of_the_series page with
    | .error e => .error e
    | .ok series =>
      let q := Episode.series_successor_query series n
      match (env.query q).head? with
      | none => .ok (none, [q])
      | some it => .ok (some (.season it), [q])

/-- Season.next: three-strategy successor resolution (no season-ordinal
strategy): explicit FOLLOWED_BY, reverse FOLLOWS lookup, series ordinal
successor. -/
def Season.next (env : Env) (page : Item) : Except Err (Option TvEntity × List String) :=
  match lookupProp page.claims .FOLLOWED_BY with
  | some [] => .error .malformedData
  | some (c :: _) => .ok (some (.season (env.fetch c.target)), [])
  | none =>
    let q := generate_sparql_query [(.FOLLOWS, page.title)]
    match (env.query q).head? with
    | some it => .ok (some (.season it), [q])
    | none =>
      match Season.ordinal_in_series page with
      | .error e => .error e
      | .ok (some _) =>
        match Season.next_in_series env page with
        | .error e => .error e
        | .ok (r, qs) => .ok (r, q :: qs)
      | .ok none => .ok (none, [q])

/-- Season.parent: the Series of this Season, from the first
PART_OF_THE_SERIES claim; a missing fact raises (the spec's
MalformedDataError). -/
def Season.parent (env : Env) (page : Item) : Except Err TvEntity :=
  match lookupProp page.claims .PART_OF_THE_SERIES with
  | none => .error .malformedData
  | some [] => .error .malformedData
  | some (c :: _) => .ok (.series (env.fetch c.target))

/-- Series.parent: inherited from BaseType.parent, which returns None for
any item — a Series has no parent and this is not an error. -/
def Series.parent (_page : Item) : Option TvEntity :=
  none

/-- One constraint object, as produced by the constructors the constraints
module exports (has_property, inherits_property, follows_something,
is_followed_by_something); television.py only builds and concatenates
these. -/
inductive Constraint where
  | has_property (p : WProp)
  | inherits_property (p : WProp)
  | follows_something
  | is_followed_by_something
  deriving DecidableEq, Repr

/-- Episode._property_constraints: thirteen has_property checks followed by
the two relation-existence checks, in source order. -/
def Episode.property_constraints : List Constraint :=
  ([ .INSTANCE_OF,
     .TITLE,
     .PART_OF_THE_SERIES,
     .SEASON,
     .ORIGINAL_NETWORK,
     .COUNTRY_OF_ORIGIN,
     .ORIGNAL_LANGUAGE_OF_FILM_OR_TV_SHOW,
     .PRODUCTION_COMPANY,
     .PUBLICATION_DATE,
     .DIRECTOR,
     .FOLLOWED_BY,
     .DURATION,
     .IMDB_ID ] : List WProp).map Constraint.has_property ++
  [ Constraint.follows_something,
    Constraint.is_followed_by_something ]

/-- Episode._inheritance_constraints: inherits_property for the four
inheritable properties, in source order. -/
def Episode.inheritance_constraints : List Constraint :=
  ([ .ORIGINAL_NETWORK,
     .COUNTRY_OF_ORIGIN,
     .ORIGNAL_LANGUAGE_OF_FILM_OR_TV_SHOW,
     .PRODUCTION_COMPANY ] : List WProp).map Constraint.inherits_property

/-- Episode.constraints: property constraints then inheritance constraints. -/
def Episode.constraints : List Constraint :=
  Episode.property_constraints ++ Episode.inheritance_constraints

/-- Season._property_constraints: nine has_property checks followed by the
is_followed_by_something relation check, in source order. -/
def Season.property_constraints : List Constraint :=
  ([ .INSTANCE_OF,
     .PART_OF_THE_SERIES,
     .ORIGINAL_NETWORK,
     .COUNTRY_OF_ORIGIN,
     .ORIGNAL_LANGUAGE_OF_FILM_OR_TV_SHOW,
     .PRODUCTION_COMPANY,
     .FOLLOWS,
     .HAS_PART,
     .NUMBER_OF_EPISODES ] : List WProp).map Constraint.has_property ++
  [ Constraint.is_followed_by_something ]

/-- Season._inheritance_constraints: inherits_property for the four
inheritable properties, in source order. -/
def Season.inheritance_constraints : List Constraint :=
  ([ .ORIGINAL_NETWORK,
     .COUNTRY_OF_ORIGIN,
     .ORIGNAL_LANGUAGE_OF_FILM_OR_TV_SHOW,
     .PRODUCTION_COMPANY ] : List WProp).map Constraint.inherits_property

/-- Season.constraints: property constraints then inheritance constraints. -/
def Season.constraints : List Constraint :=
  Season.property_constraints ++ Season.inheritance_constraints

/-- Series._property_constraints: seven has_property checks, in source
order. -/
def Series.property_constraints : List Constraint :=
  ([ .INSTANCE_OF,
     .TITLE,
     .ORIGINAL_NETWORK,
     .COUNTRY_OF_ORIGIN,
     .ORIGNAL_LANGUAGE_OF_FILM_OR_TV_SHOW,
     .PRODUCTION_COMPANY,
     .IMDB_ID ] : List WProp).map Constraint.has_property

/-- Series.constraints: property constraints only (Series declares no
inheritance constraints). -/
def Series.constraints : List Constraint :=
  Series.property_constraints

/-- Kind of a television.py entity wrapper, used by constraint evaluation to
pick the variant's parent rule. -/
inductive Kind where
  | episode
  | season
  | series
  deriving DecidableEq, Repr

/-- Parent item of an entity, by kind: an Episode's parent is the item of
its first SEASON claim (a Season); a Season's parent is the item of its
first PART_OF_THE_SERIES claim (a Series); a Series has none. -/
def parentOf (env : Env) : Kind → Item → Except Err (Option (Kind × Item))
  | .episode, page =>
    match lookupProp page.claims .SEASON with
    | none => .error .malformedData
    | some [] => .error .malformedData
    | some (c :: _) => .ok (some (.season, env.fetch c.target))
  | .season, page =>
    match lookupProp page.claims .PART_OF_THE_SERIES with
    | none => .error .malformedData
    | some [] => .error .malformedData
    | some (c :: _) => .ok (some (.series, env.fetch c.target))
  | .series, _ => .ok none

/-- Modelled from the spec: the constraints module (imported by
television.py but not under src/) evaluates inherits-fact as "the property
is present on the entity itself, OR on its parent, OR transitively up the
parent chain until a Series is reached", with a maximum-depth bound of 3
(spec section 4.2); a parent lookup that is itself impossible raises
(section 7). -/
def inheritsCheck (env : Env) : Nat → Kind → WProp → Item → Except Err Bool
  | 0, _, _, _ => .ok false
  | fuel + 1, k, p, page =>
    if (lookupProp page.claims p).isSome then .ok true
    else
      match parentOf env k page with
      | .error e => .error e
      | .ok none => .ok false
      | .ok (some (k2, parent_item)) => inheritsCheck env fuel k2 p parent_item

/-- Modelled from the spec: evaluation of one constraint against an entity
(constraints module, not under src/). has-fact passes iff the property id is
present in the entity's facts; relation-exists passes iff the FOLLOWS /
FOLLOWED_BY fact is present; inherits-fact follows the parent chain with
depth bound 3 (spec section 4.2). -/
def checkConstraint (env : Env) (k : Kind) (page : Item) : Constraint → Except Err Bool
  | .has_property p => .ok (lookupProp page.claims p).isSome
  | .follows_something => .ok (lookupProp page.claims .FOLLOWS).isSome
  | .is_followed_by_something => .ok (lookupProp page.claims .FOLLOWED_BY).isSome
  | .inherits_property p => inheritsCheck env 3 k p page

/-- Evaluation of a constraint list against an entity: the ordered list of
pass/fail outcomes. -/
def evalConstraints (env : Env) (k : Kind) (page : Item) (cs : List Constraint) : List (Except Err Bool) :=
  cs.map (checkConstraint env k page)

/-- An ordinal accessor result counts as resolvable when it returns an
actual integer (Python: `is not None` on a non-raising access). -/
def isResolvable : Except Err (Option Int) → Bool
  | .ok (some _) => true
  | _ => false

/-- Item store that resolves every id to an item with that title and no
claims, and a query service that yields nothing (concrete environment for
witnesses). -/
def emptyEnv : Env :=
  { fetch := fun t => { title := t, claims := [] }, query := fun _ => [] }

/-- An item with no claims at all. -/
def emptyItem : Item :=
  { title := "Q0", claims := [] }

/-- C1: for every Episode or Season whose claims contain a FOLLOWED_BY
fact, .next returns exactly the entity referenced by that fact (fetched
from the item store and wrapped in the same variant) and issues no SPARQL
query at all — the forward-link strategy short-circuits strategies 2-4. -/
theorem c1_followed_by_short_circuits (env : Env) (pe ps : Item) (c d : Stmt)
    (ce cs : List Stmt)
    (he : lookupProp pe.claims .FOLLOWED_BY = some (c :: ce))
    (hs : lookupProp ps.claims .FOLLOWED_BY = some (d :: cs)) :
    Episode.next env pe = .ok (some (.episode (env.fetch c.target)), []) ∧
    Season.next env ps = .ok (some (.season (env.fetch d.target)), []) := by
  constructor
  · unfold Episode.next
    rw [he]
  · unfold Season.next
    rw [hs]

/-- An item whose only claim is FOLLOWED_BY pointing at Q2. -/
def followedByItem : Item :=
  { title := "Q1", claims := [(.FOLLOWED_BY, [{ target := "Q2", qualifiers := [] }])] }

/-- Witness for C1 at a concrete item carrying a FOLLOWED_BY fact. -/
theorem c1_followed_by_short_circuits_witness :
    Episode.next emptyEnv followedByItem
      = .ok (some (.episode (emptyEnv.fetch "Q2")), []) ∧
    Season.next emptyEnv followedByItem
      = .ok (some (.season (emptyEnv.fetch "Q2")), []) :=
  c1_followed_by_short_circuits emptyEnv followedByItem followedByItem
    { target := "Q2", qualifiers := [] } { target := "Q2", qualifiers := [] }
    [] [] (by decide) (by decide)

/-- C3: Series.parent is always absent (never an error); Episode.parent on
an item lacking the SEASON fact, and Season.parent on an item lacking the
PART_OF_THE_SERIES fact, fail with MalformedDataError. -/
theorem c3_parent_absent_or_malformed (env : Env) (p0 pe ps : Item)
    (he : lookupProp pe.claims .SEASON = none)
    (hs : lookupProp ps.claims .PART_OF_THE_SERIES = none) :
    Series.parent p0 = none ∧
    Episode.parent env pe = .error .malformedData ∧
    Season.parent env ps = .error .malformedData := by
  refine ⟨rfl, ?_, ?_⟩
  · unfold Episode.parent
    rw [he]
  · unfold Season.parent
    rw [hs]

/-- Witness for C3 at an item with no claims. -/
theorem c3_parent_absent_or_malformed_witness :
    Series.parent emptyItem = none ∧
    Episode.parent emptyEnv emptyItem = .error .malformedData ∧
    Season.parent emptyEnv emptyItem = .error .malformedData :=
  c3_parent_absent_or_malformed emptyEnv emptyItem emptyItem emptyItem
    (by decide) (by decide)

/-- C4: the ordinal accessors return the int() of the SERIES_ORDINAL
qualifier on the first corresponding parent-link claim; they return None
when the parent-link fact (p1) or the qualifier (p2) is missing; and when
the qualifier value is present but not parseable as an integer (p4) they
fail with MalformedDataError instead of returning None; with a parseable
qualifier (p3) they return its integer value. -/
theorem c4_ordinal_accessors (p1 p2 p3 p4 : Item)
    (sa sb ta tb ua ub : Stmt) (la lb ma mb ra rb : List Stmt)
    (va vb wa wb : String) (qa qb q4a q4b : List String) (na nb : Int)
    (h1a : lookupProp p1.claims .PART_OF_THE_SERIES = none)
    (h1b : lookupProp p1.claims .SEASON = none)
    (h2a : lookupProp p2.claims .PART_OF_THE_SERIES = some (sa :: la))
    (h2aq : lookupProp sa.qualifiers .SERIES_ORDINAL = none)
    (h2b : lookupProp p2.claims .SEASON = some (sb :: lb))
    (h2bq : lookupProp sb.qualifiers .SERIES_ORDINAL = none)
    (h3a : lookupProp p3.claims .PART_OF_THE_SERIES = some (ta :: ma))
    (h3aq : lookupProp ta.qualifiers .SERIES_ORDINAL = some (va :: qa))
    (h3av : pyInt va = some na)
    (h3b : lookupProp p3.claims .SEASON = some (tb :: mb))
    (h3bq : lookupProp tb.qualifiers .SERIES_ORDINAL = some (vb :: qb))
    (h3bv : pyInt vb = some nb)
    (h4a : lookupProp p4.claims .PART_OF_THE_SERIES = some (ua :: ra))
    (h4aq : lookupProp ua.qualifiers .SERIES_ORDINAL = some (wa :: q4a))
    (h4av : pyInt wa = none)
    (h4b : lookupProp p4.claims .SEASON = some (ub :: rb))
    (h4bq : lookupProp ub.qualifiers .SERIES_ORDINAL = some (wb :: q4b))
    (h4bv : pyInt wb = none) :
    Episode.ordinal_in_series p1 = .ok none ∧
    Episode.ordinal_in_season p1 = .ok none ∧
    Season.ordinal_in_series p1 = .ok none ∧
    Episode.ordinal_in_series p2 = .ok none ∧
    Episode.ordinal_in_season p2 = .ok none ∧
    Season.ordinal_in_series p2 = .ok none ∧
    Episode.ordinal_in_series p3 = .ok (some na) ∧
    Episode.ordinal_in_season p3 = .ok (some nb) ∧
    Season.ordinal_in_series p3 = .ok (some na) ∧
    Episode.ordinal_in_series p4 = .error .malformedData ∧
    Episode.ordinal_in_season p4 = .error .malformedData ∧
    Season.ordinal_in_series p4 = .error .malformedData := by
  refine ⟨?_, ?_, ?_, ?_, ?_, ?_, ?_, ?_, ?_, ?_, ?_, ?_⟩ <;>
    simp only [Episode.ordinal_in_series, Episode.ordinal_in_season,
      Season.ordinal_in_series, h1a, h1b, h2a, h2aq, h2b, h2bq,
      h3a, h3aq, h3av, h3b, h3bq, h3bv, h4a, h4aq, h4av, h4b, h4bq, h4bv]

/-- An item with parent-link facts but no SERIES_ORDINAL qualifiers. -/
def noOrdinalItem : Item :=
  { title := "Q3",
    claims := [ (.PART_OF_THE_SERIES, [{ target := "Q10", qualifiers := [] }]),
                (.SEASON, [{ target := "Q20", qualifiers := [] }]) ] }

/-- An item whose parent-link facts carry numeric SERIES_ORDINAL
qualifiers (series ordinal 3, season ordinal 7). -/
def ordinalItem : Item :=
  { title := "Q4",
    claims := [ (.PART_OF_THE_SERIES,
                  [{ target := "Q10", qualifiers := [(.SERIES_ORDINAL, ["3"])] }]),
                (.SEASON,
                  [{ target := "Q20", qualifiers := [(.SERIES_ORDINAL, ["7"])] }]) ] }

/-- An item whose parent-link facts carry non-numeric SERIES_ORDINAL
qualifiers. -/
def badOrdinalItem : Item :=
  { title := "Q5",
    claims := [ (.PART_OF_THE_SERIES,
                  [{ target := "Q10", qualifiers := [(.SERIES_ORDINAL, ["three"])] }]),
                (.SEASON,
                  [{ target := "Q20", qualifiers := [(.SERIES_ORDINAL, ["s7"])] }]) ] }

/-- Witness for C4 at four concrete items covering the missing-fact,
missing-qualifier, numeric-qualifier and non-numeric-qualifier cases. -/
theorem c4_ordinal_accessors_witness :
    Episode.ordinal_in_series emptyItem = .ok none ∧
    Episode.ordinal_in_season emptyItem = .ok none ∧
    Season.ordinal_in_series emptyItem = .ok none ∧
    Episode.ordinal_in_series noOrdinalItem = .ok none ∧
    Episode.ordinal_in_season noOrdinalItem = .ok none ∧
    Season.ordinal_in_series noOrdinalItem = .ok none ∧
    Episode.ordinal_in_series ordinalItem = .ok (some 3) ∧
    Episode.ordinal_in_season ordinalItem = .ok (some 7) ∧
    Season.ordinal_in_series ordinalItem = .ok (some 3) ∧
    Episode.ordinal_in_series badOrdinalItem = .error .malformedData ∧
    Episode.ordinal_in_season badOrdinalItem = .error .malformedData ∧
    Season.ordinal_in_series badOrdinalItem = .error .malformedData :=
  c4_ordinal_accessors emptyItem noOrdinalItem ordinalItem badOrdinalItem
    { target := "Q10", qualifiers := [] } { target := "Q20", qualifiers := [] }
    { target := "Q10", qualifiers := [(.SERIES_ORDINAL, ["3"])] }
    { target := "Q20", qualifiers := [(.SERIES_ORDINAL, ["7"])] }
    { target := "Q10", qualifiers := [(.SERIES_ORDINAL, ["three"])] }
    { target := "Q20", qualifiers := [(.SERIES_ORDINAL, ["s7"])] }
    [] [] [] [] [] [] "3" "7" "three" "s7" [] [] [] [] 3 7
    (by decide) (by decide) (by decide) (by decide) (by decide) (by decide)
    (by decide) (by decide) (by decide) (by decide) (by decide) (by decide)
    (by decide) (by decide) (by decide) (by decide) (by decide) (by decide)

/-- C5: for an Episode or Season with no FOLLOWED_BY fact, when the reverse
FOLLOWS lookup yields at least one item, .next returns that first item
wrapped in the same variant (and that reverse query is the only query
issued). -/
theorem c5_reverse_lookup (env : Env) (pe ps y z : Item) (restE restS : List Item)
    (he : lookupProp pe.claims .FOLLOWED_BY = none)
    (hs : lookupProp ps.claims .FOLLOWED_BY = none)
    (hqe : env.query (generate_sparql_query [(.FOLLOWS, pe.title)]) = y :: restE)
    (hqs : env.query (generate_sparql_query [(.FOLLOWS, ps.title)]) = z :: restS) :
    Episode.next env pe
      = .ok (some (.episode y), [generate_sparql_query [(.FOLLOWS, pe.title)]]) ∧
    Season.next env ps
      = .ok (some (.season z), [generate_sparql_query [(.FOLLOWS, ps.title)]]) := by
  constructor
  · unfold Episode.next
    rw [he]
    simp only [hqe, List.head?_cons]
  · unfold Season.next
    rw [hs]
    simp only [hqs, List.head?_cons]

/-- An item yielded by the reverse FOLLOWS lookup in the C5 witness. -/
def reverseHitItem : Item :=
  { title := "Q9", claims := [] }

/-- Environment whose SPARQL service answers the reverse FOLLOWS lookup for
Q0 with one item. -/
def reverseHitEnv : Env :=
  { fetch := fun t => { title := t, claims := [] },
    query := fun q =>
      if q = generate_sparql_query [(.FOLLOWS, "Q0")] then [reverseHitItem] else [] }

/-- Witness for C5 at a concrete item with no forward link and a reverse
lookup that yields one item. -/
theorem c5_reverse_lookup_witness :
    Episode.next reverseHitEnv emptyItem
      = .ok (some (.episode reverseHitItem),
             [generate_sparql_query [(.FOLLOWS, emptyItem.title)]]) ∧
    Season.next reverseHitEnv emptyItem
      = .ok (some (.season reverseHitItem),
             [generate_sparql_query [(.FOLLOWS, emptyItem.title)]]) :=
  c5_reverse_lookup reverseHitEnv emptyItem emptyItem reverseHitItem reverseHitItem
    [] [] (by decide) (by decide) (by decide) (by decide)

/-- An episode item with both ordinals resolvable: series Q100 at series
ordinal 3, season Q200 at season ordinal 3, and no explicit forward or
backward link. -/
def bothOrdinalsItem : Item :=
  { title := "Q42",
    claims := [ (.PART_OF_THE_SERIES,
                  [{ target := "Q100", qualifiers := [(.SERIES_ORDINAL, ["3"])] }]),
                (.SEASON,
                  [{ target := "Q200", qualifiers := [(.SERIES_ORDINAL, ["3"])] }]) ] }

/-- The episode the season-ordinal strategy would find for
bothOrdinalsItem. -/
def seasonSuccessorItem : Item :=
  { title := "Q43", claims := [] }

/-- Environment in which the reverse lookup and the series-ordinal query
yield nothing but the season-ordinal query yields seasonSuccessorItem. -/
def bothOrdinalsEnv : Env :=
  { fetch := fun t => { title := t, claims := [] },
    query := fun q =>
      if q = Episode.season_successor_query (some "Q100") (some "Q200") 3 then
        [seasonSuccessorItem]
      else [] }

/-- C2 counterexample: an Episode with no explicit links, a resolvable
series ordinal whose successor query yields nothing, and a resolvable
season ordinal whose successor query yields an episode. The claim says the
season strategy is still attempted and its result returned; the code
returns None after the series-ordinal query, never issuing the
season-ordinal query (only the reverse and series queries appear in the
issued-query log). -/
theorem c2_counterexample :
    isResolvable (Episode.ordinal_in_series bothOrdinalsItem) = true ∧
    isResolvable (Episode.ordinal_in_season bothOrdinalsItem) = true ∧
    Episode.next_in_season bothOrdinalsEnv bothOrdinalsItem
      = .ok (some (.episode seasonSuccessorItem),
             [Episode.season_successor_query (some "Q100") (some "Q200") 3]) ∧
    Episode.next bothOrdinalsEnv bothOrdinalsItem
      = .ok (none, [generate_sparql_query [(.FOLLOWS, "Q42")],
                    Episode.series_successor_query (some "Q100") 3]) := by
  refine ⟨by decide, by decide, by rfl, by rfl⟩

/-- C2 (amended): when the entity has no forward link, the reverse lookup
yields nothing and ordinal_in_series is resolvable, .next returns exactly
the outcome of the series-ordinal strategy — even when that outcome is
absent — and never falls through to the season-ordinal strategy. -/
theorem c2_amended_series_short_circuits (env : Env) (page : Item)
    (h1 : lookupProp page.claims .FOLLOWED_BY = none)
    (h2 : env.query (generate_sparql_query [(.FOLLOWS, page.title)]) = [])
    (h3 : isResolvable (Episode.ordinal_in_series page) = true) :
    Episode.next env page =
      match Episode.next_in_series env page with
      | .error e => .error e
      | .ok (r, qs) => .ok (r, generate_sparql_query [(.FOLLOWS, page.title)] :: qs) := by
  cases ho : Episode.ordinal_in_series page with
  | error e => simp [isResolvable, ho] at h3
  | ok o =>
    cases o with
    | none => simp [isResolvable, ho] at h3
    | some n =>
      unfold Episode.next
      rw [h1]
      simp only [h2, List.head?_nil, ho]

/-- Witness for the amended C2 at the concrete both-ordinals episode: the
series strategy yields nothing there and .next mirrors that absence. -/
theorem c2_amended_series_short_circuits_witness :
    Episode.next bothOrdinalsEnv bothOrdinalsItem =
      match Episode.next_in_series bothOrdinalsEnv bothOrdinalsItem with
      | .error e => .error e
      | .ok (r, qs) =>
        .ok (r, generate_sparql_query [(.FOLLOWS, bothOrdinalsItem.title)] :: qs) :=
  c2_amended_series_short_circuits bothOrdinalsEnv bothOrdinalsItem
    (by decide) (by decide) (by decide)

/-- Classifier: is this constraint an inheritance check? -/
def Constraint.isInheritance : Constraint → Bool
  | .inherits_property _ => true
  | _ => false

/-- Classifier: is this constraint a relation-existence check? -/
def Constraint.isRelation : Constraint → Bool
  | .follows_something => true
  | .is_followed_by_something => true
  | _ => false

/-- Classifier: is this constraint a property-presence check? -/
def Constraint.isPresence : Constraint → Bool
  | .has_property _ => true
  | _ => false

/-- The four properties the spec expects to be inheritable down the chain:
original network, country of origin, original language, production
company. -/
def inheritableProps : List WProp :=
  [ .ORIGINAL_NETWORK, .COUNTRY_OF_ORIGIN,
    .ORIGNAL_LANGUAGE_OF_FILM_OR_TV_SHOW, .PRODUCTION_COMPANY ]

/-- C7 counterexample: the claim includes Series among the variants whose
constraint list combines inheritance checks for the four inheritable
properties, but Series.constraints contains no inheritance check at all. -/
theorem c7_counterexample :
    Series.constraints.filter Constraint.isInheritance = [] ∧
    ([] : List Constraint) ≠ inheritableProps.map Constraint.inherits_property := by
  exact ⟨by decide, by decide⟩

/-- C7 (amended): every variant's .constraints is a fixed ordered list of
presence, inheritance and relation-existence checks; the inheritance checks
cover exactly the four inheritable properties for Episode and Season, while
Series has none; the relation-existence checks are follows and
is-followed-by for Episode, is-followed-by for Season, none for Series. -/
theorem c7_amended_constraint_lists :
    Episode.constraints.filter Constraint.isInheritance
      = inheritableProps.map Constraint.inherits_property ∧
    Season.constraints.filter Constraint.isInheritance
      = inheritableProps.map Constraint.inherits_property ∧
    Series.constraints.filter Constraint.isInheritance = [] ∧
    Episode.constraints.filter Constraint.isRelation
      = [.follows_something, .is_followed_by_something] ∧
    Season.constraints.filter Constraint.isRelation = [.is_followed_by_something] ∧
    Series.constraints.filter Constraint.isRelation = [] ∧
    Episode.constraints.all
      (fun c => c.isPresence || c.isInheritance || c.isRelation) = true ∧
    Season.constraints.all
      (fun c => c.isPresence || c.isInheritance || c.isRelation) = true ∧
    Series.constraints.all
      (fun c => c.isPresence || c.isInheritance || c.isRelation) = true := by
  decide

/-- Helper: the parent rule only reads the item's claims (and the store). -/
theorem parentOf_claims_only (env : Env) (k : Kind) (p1 p2 : Item)
    (h : p1.claims = p2.claims) : parentOf env k p1 = parentOf env k p2 := by
  cases k <;> simp only [parentOf, h]

/-- Helper: the inherits-fact evaluation only reads the item's claims (and
the store). -/
theorem inheritsCheck_claims_only (env : Env) (fuel : Nat) (k : Kind) (p : WProp)
    (p1 p2 : Item) (h : p1.claims = p2.claims) :
    inheritsCheck env fuel k p p1 = inheritsCheck env fuel k p p2 := by
  cases fuel with
  | zero => rfl
  | succ m =>
    unfold inheritsCheck
    rw [h, parentOf_claims_only env k p1 p2 h]

/-- Helper: evaluating one constraint only reads the item's claims (and the
store). -/
theorem checkConstraint_claims_only (env : Env) (k : Kind) (p1 p2 : Item)
    (h : p1.claims = p2.claims) (c : Constraint) :
    checkConstraint env k p1 c = checkConstraint env k p2 c := by
  cases c with
  | has_property p => simp only [checkConstraint, h]
  | follows_something => simp only [checkConstraint, h]
  | is_followed_by_something => simp only [checkConstraint, h]
  | inherits_property p => exact inheritsCheck_claims_only env 3 k p p1 p2 h

/-- C8: the constraint list of each variant is a fixed value and each
constraint's outcome is a function of the backing item's facts alone: two
evaluations over items with identical claims (in particular two evaluations
over the same unmodified item) yield identical ordered pass/fail results. -/
theorem c8_constraints_deterministic (env : Env) (p1 p2 : Item)
    (h : p1.claims = p2.claims) :
    evalConstraints env .episode p1 Episode.constraints
      = evalConstraints env .episode p2 Episode.constraints ∧
    evalConstraints env .season p1 Season.constraints
      = evalConstraints env .season p2 Season.constraints ∧
    evalConstraints env .series p1 Series.constraints
      = evalConstraints env .series p2 Series.constraints := by
  refine ⟨?_, ?_, ?_⟩ <;>
  · unfold evalConstraints
    exact List.map_congr_left (fun c _ => checkConstraint_claims_only env _ p1 p2 h c)

/-- An item with one INSTANCE_OF claim, titled QA. -/
def instanceItemA : Item :=
  { title := "QA", claims := [(.INSTANCE_OF, [{ target := "Q99", qualifiers := [] }])] }

/-- The same claims as instanceItemA under a different title. -/
def instanceItemB : Item :=
  { title := "QB", claims := [(.INSTANCE_OF, [{ target := "Q99", qualifiers := [] }])] }

/-- Witness for C8 at two concrete items sharing their claims. -/
theorem c8_constraints_deterministic_witness :
    evalConstraints emptyEnv .episode instanceItemA Episode.constraints
      = evalConstraints emptyEnv .episode instanceItemB Episode.constraints ∧
    evalConstraints emptyEnv .season instanceItemA Season.constraints
      = evalConstraints emptyEnv .season instanceItemB Season.constraints ∧
    evalConstraints emptyEnv .series instanceItemA Series.constraints
      = evalConstraints emptyEnv .series instanceItemB Series.constraints :=
  c8_constraints_deterministic emptyEnv instanceItemA instanceItemB (by decide)

/-- Kind test: the outcome wraps an Episode. -/
def TvEntity.isEpisode : TvEntity → Bool
  | .episode _ => true
  | _ => false

/-- Kind test: the outcome wraps a Season. -/
def TvEntity.isSeason : TvEntity → Bool
  | .season _ => true
  | _ => false

/-- Kind test: the outcome wraps a Series. -/
def TvEntity.isSeries : TvEntity → Bool
  | .series _ => true
  | _ => false

/-- Lift a kind test over an optional successor (absent passes). -/
def optionKind (p : TvEntity → Bool) : Option TvEntity → Bool
  | some e => p e
  | none => true

/-- Every possible successor outcome satisfies the kind test (errors and
absences pass vacuously). -/
def resultsAre (p : TvEntity → Bool) : Except Err (Option TvEntity × List String) → Bool
  | .ok (r, _) => optionKind p r
  | .error _ => true

/-- A parent outcome satisfies the kind test (errors pass vacuously). -/
def parentIs (p : TvEntity → Bool) : Except Err TvEntity → Bool
  | .ok e => p e
  | .error _ => true

/-- Helper: next_in_series only ever wraps Episodes. -/
theorem episode_next_in_series_kind (env : Env) (page : Item) :
    resultsAre TvEntity.isEpisode (Episode.next_in_series env page) = true := by
  unfold Episode.next_in_series
  cases Episode.ordinal_in_series page with
  | error e => rfl
  | ok o =>
    cases o with
    | none => rfl
    | some n =>
      cases Episode.part_of_the_series page with
      | error e => rfl
      | ok series =>
        dsimp only
        cases (env.query (Episode.series_successor_query series n)).head? with
        | none => rfl
        | some it => rfl

/-- Helper: next_in_season only ever wraps Episodes. -/
theorem episode_next_in_season_kind (env : Env) (page : Item) :
    resultsAre TvEntity.isEpisode (Episode.next_in_season env page) = true := by
  unfold Episode.next_in_season
  cases Episode.ordinal_in_season page with
  | error e => rfl
  | ok o =>
    cases o with
    | none => rfl
    | some n =>
      cases Episode.part_of_the_series page with
      | error e => rfl
      | ok series =>
        cases Episode.season page with
        | error e => rfl
        | ok season =>
          dsimp only
          cases (env.query (Episode.season_successor_query series season n)).head? with
          | none => rfl
          | some it => rfl

/-- Helper: Season.next_in_series only ever wraps Seasons. -/
theorem season_next_in_series_kind (env : Env) (page : Item) :
    resultsAre TvEntity.isSeason (Season.next_in_series env page) = true := by
  unfold Season.next_in_series
  cases Season.ordinal_in_series page with
  | error e => rfl
  | ok o =>
    cases o with
    | none => rfl
    | some n =>
      cases Season.part_of_the_series page with
      | error e => rfl
      | ok series =>
        dsimp only
        cases (env.query (Episode.series_successor_query series n)).head? with
        | none => rfl
        | some it => rfl

/-- C9: kind preservation — for any environment and any backing item, every
non-absent result of Episode.next / next_in_series / next_in_season is an
Episode and Episode.parent yields a Season; every non-absent result of
Season.next / next_in_series is a Season and Season.parent yields a Series.
Quantifying over every environment shows the wrapper kind never depends on
the data the store or query service returns. -/
theorem c9_kind_preservation (env : Env) (page : Item) :
    resultsAre TvEntity.isEpisode (Episode.next env page) = true ∧
    resultsAre TvEntity.isEpisode (Episode.next_in_series env page) = true ∧
    resultsAre TvEntity.isEpisode (Episode.next_in_season env page) = true ∧
    parentIs TvEntity.isSeason (Episode.parent env page) = true ∧
    resultsAre TvEntity.isSeason (Season.next env page) = true ∧
    resultsAre TvEntity.isSeason (Season.next_in_series env page) = true ∧
    parentIs TvEntity.isSeries (Season.parent env page) = true := by
  refine ⟨?_, episode_next_in_series_kind env page, episode_next_in_season_kind env page,
          ?_, ?_, season_next_in_series_kind env page, ?_⟩
  · unfold Episode.next
    cases lookupProp page.claims .FOLLOWED_BY with
    | some l =>
      cases l with
      | nil => rfl
      | cons c rest => rfl
    | none =>
      dsimp only
      cases (env.query (generate_sparql_query [(.FOLLOWS, page.title)])).head? with
      | some it => rfl
      | none =>
        cases Episode.ordinal_in_series page with
        | error e => rfl
        | ok o =>
          cases o with
          | some n =>
            have h1 := episode_next_in_series_kind env page
            cases hnis : Episode.next_in_series env page with
            | error e => rfl
            | ok pr =>
              cases pr with
              | mk r qs =>
                rw [hnis] at h1
                dsimp only
                simpa [resultsAre] using h1
          | none =>
            cases Episode.ordinal_in_season page with
            | error e => rfl
            | ok o2 =>
              cases o2 with
              | some m =>
                have h2 := episode_next_in_season_kind env page
                cases hnes : Episode.next_in_season env page with
                | error e => rfl
                | ok pr =>
                  cases pr with
                  | mk r qs =>
                    rw [hnes] at h2
                    dsimp only
                    simpa [resultsAre] using h2
              | none => rfl
  · unfold Episode.parent
    cases lookupProp page.claims .SEASON with
    | none => rfl
    | some l =>
      cases l with
      | nil => rfl
      | cons c rest => rfl
  · unfold Season.next
    cases lookupProp page.claims .FOLLOWED_BY with
    | some l =>
      cases l with
      | nil => rfl
      | cons c rest => rfl
    | none =>
      dsimp only
      cases (env.query (generate_sparql_query [(.FOLLOWS, page.title)])).head? with
      | some it => rfl
      | none =>
        cases Season.ordinal_in_series page with
        | error e => rfl
        | ok o =>
          cases o with
          | some n =>
            have h1 := season_next_in_series_kind env page
            cases hnis : Season.next_in_series env page with
            | error e => rfl
            | ok pr =>
              cases pr with
              | mk r qs =>
                rw [hnis] at h1
                dsimp only
                simpa [resultsAre] using h1
          | none => rfl
  · unfold Season.parent
    cases lookupProp page.claims .PART_OF_THE_SERIES with
    | none => rfl
    | some l =>
      cases l with
      | nil => rfl
      | cons c rest => rfl

/-- Substring occurrence test on the character data of two strings. -/
def hasSubstr (s pat : String) : Bool :=
  decide (pat.data <:+: s.data)

/-- Helper: substring presence is preserved by appending on the right. -/
theorem hasSubstr_append_right (x y pat : String) (h : hasSubstr x pat = true) :
    hasSubstr (x ++ y) pat = true := by
  unfold hasSubstr at h ⊢
  rw [decide_eq_true_iff] at h ⊢
  rw [String.data_append]
  exact h.trans (List.prefix_append x.data y.data).isInfix

/-- Helper: a season-successor query built from an absent series id contains
the text wd:None (the Python f-string interpolation of None). -/
theorem season_query_mentions_none (season : Option String) (n : Int) :
    hasSubstr (Episode.season_successor_query none season n) "wd:None" = true := by
  unfold Episode.season_successor_query
  apply hasSubstr_append_right
  decide

/-- C10: the season-ordinal strategy is guarded only by ordinal_in_season —
for an Episode whose SEASON claim carries a numeric ordinal but which has no
PART_OF_THE_SERIES fact, next_in_season neither raises nor returns early: it
issues exactly one query, whose text interpolates the absent series id as
the text wd:None, and wraps the query's first result if any. -/
theorem c10_absent_series_still_queries (env : Env) (page : Item) (cS : Stmt)
    (lS : List Stmt) (vS : String) (qSl : List String) (nS : Int)
    (hP : lookupProp page.claims .PART_OF_THE_SERIES = none)
    (hS : lookupProp page.claims .SEASON = some (cS :: lS))
    (hSq : lookupProp cS.qualifiers .SERIES_ORDINAL = some (vS :: qSl))
    (hSv : pyInt vS = some nS) :
    Episode.next_in_season env page
      = .ok ((env.query (Episode.season_successor_query none (some cS.target) nS)).head?.map
               TvEntity.episode,
             [Episode.season_successor_query none (some cS.target) nS]) ∧
    hasSubstr (Episode.season_successor_query none (some cS.target) nS) "wd:None" = true := by
  constructor
  · unfold Episode.next_in_season
    simp only [Episode.ordinal_in_season, Episode.part_of_the_series, Episode.season,
      hS, hSq, hSv, hP]
    cases (env.query (Episode.season_successor_query none (some cS.target) nS)).head? <;> rfl
  · exact season_query_mentions_none (some cS.target) nS

/-- An item with a season link carrying ordinal 7 but no series link. -/
def seasonOnlyItem : Item :=
  { title := "Q6",
    claims := [(.SEASON, [{ target := "Q20", qualifiers := [(.SERIES_ORDINAL, ["7"])] }])] }

/-- Witness for C10 at a concrete item with a season ordinal and no series
fact. -/
theorem c10_absent_series_still_queries_witness :
    Episode.next_in_season emptyEnv seasonOnlyItem
      = .ok ((emptyEnv.query (Episode.season_successor_query none (some "Q20") 7)).head?.map
               TvEntity.episode,
             [Episode.season_successor_query none (some "Q20") 7]) ∧
    hasSubstr (Episode.season_successor_query none (some "Q20") 7) "wd:None" = true :=
  c10_absent_series_still_queries emptyEnv seasonOnlyItem
    { target := "Q20", qualifiers := [(.SERIES_ORDINAL, ["7"])] }
    [] "7" [] 7 (by decide) (by decide) (by decide) (by decide)

/-- Helper: Episode.next consumes only each query's first result — its
outcome is unchanged in any environment with the same store and the same
first query results. -/
theorem episode_next_first_only (env env2 : Env) (page : Item)
    (hf : env.fetch = env2.fetch)
    (hq : ∀ q, (env.query q).head? = (env2.query q).head?) :
    Episode.next env page = Episode.next env2 page := by
  unfold Episode.next Episode.next_in_series Episode.next_in_season
  simp only [hq, hf]

/-- Helper: Season.next consumes only each query's first result. -/
theorem season_next_first_only (env env2 : Env) (page : Item)
    (hf : env.fetch = env2.fetch)
    (hq : ∀ q, (env.query q).head? = (env2.query q).head?) :
    Season.next env page = Season.next env2 page := by
  unfold Season.next Season.next_in_series
  simp only [hq, hf]

/-- Helper: with a season ordinal and a series link in place, next_in_season
issues exactly one query and wraps its first result. -/
theorem episode_next_in_season_one_query (env : Env) (page : Item) (cS cP : Stmt)
    (lS lP : List Stmt) (vS : String) (qSl : List String) (nS : Int)
    (hS : lookupProp page.claims .SEASON = some (cS :: lS))
    (hSq : lookupProp cS.qualifiers .SERIES_ORDINAL = some (vS :: qSl))
    (hSv : pyInt vS = some nS)
    (hP : lookupProp page.claims .PART_OF_THE_SERIES = some (cP :: lP)) :
    Episode.next_in_season env page
      = .ok ((env.query (Episode.season_successor_query (some cP.target) (some cS.target) nS)).head?.map
               TvEntity.episode,
             [Episode.season_successor_query (some cP.target) (some cS.target) nS]) := by
  unfold Episode.next_in_season
  simp only [Episode.ordinal_in_season, Episode.part_of_the_series, Episode.season,
    hS, hSq, hSv, hP]
  cases (env.query (Episode.season_successor_query (some cP.target) (some cS.target) nS)).head?
    <;> rfl

/-- Helper: with a series ordinal in place, next_in_series issues exactly
one query and wraps its first result. -/
theorem episode_next_in_series_one_query (env : Env) (page : Item) (cP : Stmt)
    (lP : List Stmt) (vP : String) (qPl : List String) (nP : Int)
    (hP : lookupProp page.claims .PART_OF_THE_SERIES = some (cP :: lP))
    (hPq : lookupProp cP.qualifiers .SERIES_ORDINAL = some (vP :: qPl))
    (hPv : pyInt vP = some nP) :
    Episode.next_in_series env page
      = .ok ((env.query (Episode.series_successor_query (some cP.target) nP)).head?.map
               TvEntity.episode,
             [Episode.series_successor_query (some cP.target) nP]) := by
  unfold Episode.next_in_series
  simp only [Episode.ordinal_in_series, Episode.part_of_the_series, hP, hPq, hPv]
  cases (env.query (Episode.series_successor_query (some cP.target) nP)).head? <;> rfl

/-- Helper: with a series ordinal in place, Season.next_in_series issues
exactly one query and wraps its first result as a Season. -/
theorem season_next_in_series_one_query (env : Env) (page : Item) (cP : Stmt)
    (lP : List Stmt) (vP : String) (qPl : List String) (nP : Int)
    (hP : lookupProp page.claims .PART_OF_THE_SERIES = some (cP :: lP))
    (hPq : lookupProp cP.qualifiers .SERIES_ORDINAL = some (vP :: qPl))
    (hPv : pyInt vP = some nP) :
    Season.next_in_series env page
      = .ok ((env.query (Episode.series_successor_query (some cP.target) nP)).head?.map
               TvEntity.season,
             [Episode.series_successor_query (some cP.target) nP]) := by
  unfold Season.next_in_series
  simp only [Season.ordinal_in_series, Season.part_of_the_series, hP, hPq, hPv]
  cases (env.query (Episode.series_successor_query (some cP.target) nP)).head? <;> rfl

/-- C6: every .next strategy after the explicit forward link issues exactly
one query per attempt and consumes at most the first element of the
returned sequence. First two conjuncts: the outcome of .next is unchanged
in any environment agreeing on first query results (nothing beyond each
sequence's head is consumed). Next three: each ordinal strategy attempt
logs exactly its one query and wraps the query's first result, whether or
not more matches exist. Last two: with no forward link and an empty reverse
lookup, .next logs exactly one query per attempted strategy — the reverse
query then the series-ordinal query — and takes the first match of the
latter without reconciling further matches. -/
theorem c6_one_query_first_result_only (env env2 : Env) (page : Item) (cS cP : Stmt)
    (lS lP : List Stmt) (vS vP : String) (qSl qPl : List String) (nS nP : Int)
    (hf : env.fetch = env2.fetch)
    (hq : ∀ q, (env.query q).head? = (env2.query q).head?)
    (hS : lookupProp page.claims .SEASON = some (cS :: lS))
    (hSq : lookupProp cS.qualifiers .SERIES_ORDINAL = some (vS :: qSl))
    (hSv : pyInt vS = some nS)
    (hP : lookupProp page.claims .PART_OF_THE_SERIES = some (cP :: lP))
    (hPq : lookupProp cP.qualifiers .SERIES_ORDINAL = some (vP :: qPl))
    (hPv : pyInt vP = some nP)
    (hF : lookupProp page.claims .FOLLOWED_BY = none)
    (hrev : env.query (generate_sparql_query [(.FOLLOWS, page.title)]) = []) :
    Episode.next env page = Episode.next env2 page ∧
    Season.next env page = Season.next env2 page ∧
    Episode.next_in_season env page
      = .ok ((env.query (Episode.season_successor_query (some cP.target) (some cS.target) nS)).head?.map
               TvEntity.episode,
             [Episode.season_successor_query (some cP.target) (some cS.target) nS]) ∧
    Episode.next_in_series env page
      = .ok ((env.query (Episode.series_successor_query (some cP.target) nP)).head?.map
               TvEntity.episode,
             [Episode.series_successor_query (some cP.target) nP]) ∧
    Season.next_in_series env page
      = .ok ((env.query (Episode.series_successor_query (some cP.target) nP)).head?.map
               TvEntity.season,
             [Episode.series_successor_query (some cP.target) nP]) ∧
    Episode.next env page
      = .ok ((env.query (Episode.series_successor_query (some cP.target) nP)).head?.map
               TvEntity.episode,
             [generate_sparql_query [(.FOLLOWS, page.title)],
              Episode.series_successor_query (some cP.target) nP]) ∧
    Season.next env page
      = .ok ((env.query (Episode.series_successor_query (some cP.target) nP)).head?.map
               TvEntity.season,
             [generate_sparql_query [(.FOLLOWS, page.title)],
              Episode.series_successor_query (some cP.target) nP]) := by
  refine ⟨episode_next_first_only env env2 page hf hq,
          season_next_first_only env env2 page hf hq,
          episode_next_in_season_one_query env page cS cP lS lP vS qSl nS hS hSq hSv hP,
          episode_next_in_series_one_query env page cP lP vP qPl nP hP hPq hPv,
          season_next_in_series_one_query env page cP lP vP qPl nP hP hPq hPv,
          ?_, ?_⟩
  · unfold Episode.next
    simp only [hF, hrev, List.head?_nil, Episode.ordinal_in_series, hP, hPq, hPv,
      episode_next_in_series_one_query env page cP lP vP qPl nP hP hPq hPv]
  · unfold Season.next
    simp only [hF, hrev, List.head?_nil, Season.ordinal_in_series, hP, hPq, hPv,
      season_next_in_series_one_query env page cP lP vP qPl nP hP hPq hPv]

/-- Witness for C6 at a concrete episode item with both ordinals set, in two
(identical) environments. -/
theorem c6_one_query_first_result_only_witness :
    Episode.next emptyEnv ordinalItem = Episode.next emptyEnv ordinalItem ∧
    Season.next emptyEnv ordinalItem = Season.next emptyEnv ordinalItem ∧
    Episode.next_in_season emptyEnv ordinalItem
      = .ok ((emptyEnv.query (Episode.season_successor_query (some "Q10") (some "Q20") 7)).head?.map
               TvEntity.episode,
             [Episode.season_successor_query (some "Q10") (some "Q20") 7]) ∧
    Episode.next_in_series emptyEnv ordinalItem
      = .ok ((emptyEnv.query (Episode.series_successor_query (some "Q10") 3)).head?.map
               TvEntity.episode,
             [Episode.series_successor_query (some "Q10") 3]) ∧
    Season.next_in_series emptyEnv ordinalItem
      = .ok ((emptyEnv.query (Episode.series_successor_query (some "Q10") 3)).head?.map
               TvEntity.season,
             [Episode.series_successor_query (some "Q10") 3]) ∧
    Episode.next emptyEnv ordinalItem
      = .ok ((emptyEnv.query (Episode.series_successor_query (some "Q10") 3)).head?.map
               TvEntity.episode,
             [generate_sparql_query [(.FOLLOWS, ordinalItem.title)],
              Episode.series_successor_query (some "Q10") 3]) ∧
    Season.next emptyEnv ordinalItem
      = .ok ((emptyEnv.query (Episode.series_successor_query (some "Q10") 3)).head?.map
               TvEntity.season,
             [generate_sparql_query [(.FOLLOWS, ordinalItem.title)],
              Episode.series_successor_query (some "Q10") 3]) :=
  c6_one_query_first_result_only emptyEnv emptyEnv ordinalItem
    { target := "Q20", qualifiers := [(.SERIES_ORDINAL, ["7"])] }
    { target := "Q10", qualifiers := [(.SERIES_ORDINAL, ["3"])] }
    [] [] "7" "3" [] [] 7 3
    rfl (fun _ => rfl)
    (by decide) (by decide) (by decide) (by decide) (by decide) (by decide)
    (by decide) rfl
